import Mathlib

/-!
Verification development for the bermudafunk studio dispatcher
(src/bermudafunk/dispatcher).  The definitions below are a shallow
embedding of the dispatcher core: the declarative transition table of
transitions.py, the hook pipeline and button-event dispatch of
dispatcher.py, the timer-slot routines, the persistence loader, and
calc_next_hour of utils.py.
-/

namespace BermudaFunk

/-! ## Substring matching

Python's `'X' in state_name` test, used throughout dispatcher.py for
role tokens, timer names and state families, is substring containment.
-/

/-- Containment of the list `needle` as a contiguous segment of `hay`,
mirroring the Python `in` operator on strings once both are viewed as
character lists. -/
def listHasSegment [DecidableEq α] (needle : List α) : List α → Bool
  | [] => needle.isEmpty
  | a :: tl => needle.isPrefixOf (a :: tl) || listHasSegment needle tl

/-- The Python test `needle in hay` on strings. -/
def strContains (hay needle : String) : Bool :=
  listHasSegment needle.toList hay.toList

/-! ## States and the transition table (transitions.py)

The `States` enumeration of transitions.py lines 93-313 provides the ten
state names; the `transitions` list of lines 316-359 provides the rows,
two of which carry the `switch_to_y` flag.
-/

/-- The ten state names of the `States` enumeration, in declaration
order. -/
def stateNames : List String :=
  [ "automat_on_air",
    "automat_on_air_immediate_state_X",
    "from_automat_on_air_change_to_studio_X_on_next_hour",
    "studio_X_on_air",
    "from_studio_X_on_air_change_to_automat_on_next_hour",
    "studio_X_on_air_immediate_state",
    "studio_X_on_air_immediate_release",
    "from_studio_X_on_air_change_to_studio_Y_on_next_hour",
    "studio_X_on_air_studio_Y_takeover_request",
    "noop" ]

/-- One row of the declarative transition table: trigger name, source
state name, destination state name, and the `switch_to_y` flag. -/
structure TransRow where
  trigger : String
  source : String
  dest : String
  switchToY : Bool
deriving DecidableEq, Repr

/-- The transition table of transitions.py lines 316-359, row for row
and in order.  The two rows flagged there with `switch_to_y: True` have
`switchToY := true`. -/
def tableRows : List TransRow :=
  [ ⟨"takeover_X", "automat_on_air", "from_automat_on_air_change_to_studio_X_on_next_hour", false⟩,
    ⟨"immediate_X", "automat_on_air", "automat_on_air_immediate_state_X", false⟩,
    ⟨"takeover_X", "automat_on_air_immediate_state_X", "studio_X_on_air", false⟩,
    ⟨"release_X", "automat_on_air_immediate_state_X", "automat_on_air", false⟩,
    ⟨"immediate_X", "automat_on_air_immediate_state_X", "automat_on_air", false⟩,
    ⟨"immediate_state_timeout", "automat_on_air_immediate_state_X", "automat_on_air", false⟩,
    ⟨"takeover_X", "from_automat_on_air_change_to_studio_X_on_next_hour", "automat_on_air", false⟩,
    ⟨"release_X", "from_automat_on_air_change_to_studio_X_on_next_hour", "automat_on_air", false⟩,
    ⟨"next_hour", "from_automat_on_air_change_to_studio_X_on_next_hour", "studio_X_on_air", false⟩,
    ⟨"release_X", "studio_X_on_air", "from_studio_X_on_air_change_to_automat_on_next_hour", false⟩,
    ⟨"immediate_X", "studio_X_on_air", "studio_X_on_air_immediate_state", false⟩,
    ⟨"takeover_Y", "studio_X_on_air", "studio_X_on_air_studio_Y_takeover_request", false⟩,
    ⟨"takeover_X", "from_studio_X_on_air_change_to_automat_on_next_hour", "studio_X_on_air", false⟩,
    ⟨"release_X", "from_studio_X_on_air_change_to_automat_on_next_hour", "studio_X_on_air", false⟩,
    ⟨"takeover_Y", "from_studio_X_on_air_change_to_automat_on_next_hour", "from_studio_X_on_air_change_to_studio_Y_on_next_hour", false⟩,
    ⟨"next_hour", "from_studio_X_on_air_change_to_automat_on_next_hour", "automat_on_air", false⟩,
    ⟨"immediate_X", "studio_X_on_air_immediate_state", "studio_X_on_air", false⟩,
    ⟨"immediate_state_timeout", "studio_X_on_air_immediate_state", "studio_X_on_air", false⟩,
    ⟨"release_X", "studio_X_on_air_immediate_state", "studio_X_on_air_immediate_release", false⟩,
    ⟨"takeover_X", "studio_X_on_air_immediate_release", "studio_X_on_air_immediate_state", false⟩,
    ⟨"release_X", "studio_X_on_air_immediate_release", "studio_X_on_air_immediate_state", false⟩,
    ⟨"takeover_Y", "studio_X_on_air_immediate_release", "studio_X_on_air", true⟩,
    ⟨"immediate_release_timeout", "studio_X_on_air_immediate_release", "automat_on_air", false⟩,
    ⟨"takeover_Y", "from_studio_X_on_air_change_to_studio_Y_on_next_hour", "from_studio_X_on_air_change_to_automat_on_next_hour", false⟩,
    ⟨"release_Y", "from_studio_X_on_air_change_to_studio_Y_on_next_hour", "from_studio_X_on_air_change_to_automat_on_next_hour", false⟩,
    ⟨"next_hour", "from_studio_X_on_air_change_to_studio_Y_on_next_hour", "studio_X_on_air", true⟩,
    ⟨"takeover_Y", "studio_X_on_air_studio_Y_takeover_request", "studio_X_on_air", false⟩,
    ⟨"release_Y", "studio_X_on_air_studio_Y_takeover_request", "studio_X_on_air", false⟩,
    ⟨"release_X", "studio_X_on_air_studio_Y_takeover_request", "from_studio_X_on_air_change_to_studio_Y_on_next_hour", false⟩ ]

/-! ## Buttons and events (data_types.py) -/

/-- The `Button` enumeration of data_types.py. -/
inductive Button where
  | takeover
  | release
  | immediate
deriving DecidableEq, Repr

/-- The Python `button.name` used to build trigger names. -/
def Button.name : Button → String
  | .takeover => "takeover"
  | .release => "release"
  | .immediate => "immediate"

/-- The members of the `Button` enumeration, in declaration order, as
iterated by `for button in Button` in `Dispatcher.__init__`. -/
def buttonList : List Button := [.takeover, .release, .immediate]

/-- A `ButtonEvent(studio, button)` as put on the dispatcher queue.
Studios are represented by an arbitrary type `σ` with decidable
equality (the registry of Studio objects). -/
structure ButtonEvent (σ : Type) where
  studio : σ
  button : Button
deriving DecidableEq, Repr

/-! ## The machine built in Dispatcher.__init__ (dispatcher.py 146-188)

`Dispatcher.__init__` adds every table row to a `transitions` machine
created with `ignore_invalid_triggers=True`, then completes the button
trigger vocabulary: for every button and kind in {X, Y} whose combined
trigger name is not yet an event, it adds a `noop` to `noop` transition.
The machine also carries the library's automatic `to_<state>` triggers
(wildcard source), used by `Dispatcher.load`.
-/

/-- The `noop`-completion rows added in dispatcher.py lines 183-188: one
row per button/kind combination whose trigger is not yet registered
(concretely, only `immediate_Y`). -/
def noopRows : List TransRow :=
  buttonList.flatMap fun b =>
    ["X", "Y"].filterMap fun k =>
      let t := b.name ++ "_" ++ k
      if tableRows.any (fun r => r.trigger = t) then none
      else some ⟨t, "noop", "noop", false⟩

/-- All explicitly added transitions of the dispatcher machine, in
insertion order. -/
def machineRows : List TransRow := tableRows ++ noopRows

/-- Lookup of the transition executed for trigger `t` in state `s`: the
first explicitly added row matching both (the library keeps transitions
per trigger in insertion order and runs the first applicable one). -/
def findRow (s t : String) : Option TransRow :=
  machineRows.find? fun r => r.trigger = t && r.source = s

/-- Destination of an automatic `to_<state>` trigger, if `t` is one:
these are registered for every state with a wildcard source. -/
def autoDest (t : String) : Option String :=
  stateNames.find? fun n => t = "to_" ++ n

/-- State-label semantics of firing trigger `t` in state `s`: the
declared destination when a transition matches, otherwise the state is
left unchanged (`ignore_invalid_triggers=True`). -/
def machineStep (s t : String) : String :=
  match autoDest t with
  | some dest => dest
  | none =>
    match findRow s t with
    | some row => row.dest
    | none => s

/-- The Boolean form of a `(trigger, source)` pair being listed in the
declarative table. -/
def inTable (s t : String) : Bool :=
  tableRows.any fun r => r.trigger = t && r.source = s

/-- The trigger vocabulary that the running dispatcher ever fires
against the machine: the six button triggers built from a button name
and a role suffix, the hourly trigger and the two timeout triggers.
(The `*_other` names of the specification are never registered nor
fired; `to_<state>` triggers are only used by `Dispatcher.load`.) -/
def triggerVocab : List String :=
  [ "takeover_X", "takeover_Y", "release_X", "release_Y",
    "immediate_X", "immediate_Y",
    "next_hour", "immediate_state_timeout", "immediate_release_timeout" ]

/-! ## Dispatcher state and the hook pipeline (dispatcher.py)

The mutable dispatcher values touched by a transition are the machine
state, the role slots `_x` and `_y`, and `_on_air_selector_value`.  The
timer task slots are modelled separately below (they do not feed back
into these four values).  A transition runs, in order:
`_before_state_change` (bind the role slot named in the trigger from
the button event, stop timers absent from the destination name), the
transition's own before callbacks (`_prepare_y_to_x` on flagged rows),
the state change with the destination's enter callbacks
(`_change_to_automat` on `automat_on_air`, `_change_to_studio` on
`studio_X_on_air`), `_after_state_change` (clear role slots whose token
is absent from the destination name, start timers present in it), and
the finalize callbacks (audit, lamps, observers), which do not modify
these values.
-/

/-- The deployment configuration fixed in `Dispatcher.__init__`: the
registered studios, the selector value of each
(`_studios_to_selector_value`), and the automat's selector value. -/
structure DispCfg (σ : Type) where
  studios : List σ
  selVal : σ → Nat
  automatSel : Nat

/-- The dispatcher values mutated by transitions: the machine state
name, the role slots `_x` and `_y`, and `_on_air_selector_value`. -/
structure DispState (σ : Type) where
  state : String
  x : Option σ
  y : Option σ
  onAir : Nat
deriving DecidableEq, Repr

/-- The dispatcher right after `__init__`: machine state
`automat_on_air`, both role slots empty, on-air value the automat's
selector value. -/
def initialState (cfg : DispCfg σ) : DispState σ :=
  ⟨"automat_on_air", none, none, cfg.automatSel⟩

/-- The role binding of `_before_state_change` (dispatcher.py 250-257):
when the event carries a `button_event` kwarg, assign `_x` when the
trigger name contains the token `X`, else `_y` when it contains `Y`. -/
def bindFromButton (t : String) (ev : Option (ButtonEvent σ)) (d : DispState σ) :
    DispState σ :=
  match ev with
  | none => d
  | some e =>
    if strContains t "X" then { d with x := some e.studio }
    else if strContains t "Y" then { d with y := some e.studio }
    else d

/-- Modelled from the spec: the loader `load_states_transitions` that
dispatcher.py imports from transitions.py is missing from src, and it
is the code that connects the `switch_to_y` column of the transition
table to the `y_to_x` key consumed in `Dispatcher.__init__` (lines
173-180), which appends `_prepare_y_to_x` to the row's before
callbacks.  Per the spec, switch_xy=true means: before entering dest,
swap X to the former Y and empty Y, and the swap runs before the
on-enter hook reads X.  Accordingly a flagged row runs this swap,
`_prepare_y_to_x` of dispatcher.py line 232-233, in its before
phase. -/
def prepareYtoX (d : DispState σ) : DispState σ :=
  { d with x := d.y, y := none }

/-- The state change with enter callbacks: `_change_to_automat` sets
the on-air value to the automat's selector value; `_change_to_studio`
looks `_x` up in `_studios_to_selector_value`, raising a `KeyError`
(modelled as `none`) when `_x` is unbound. -/
def enterState (cfg : DispCfg σ) (dest : String) (d : DispState σ) :
    Option (DispState σ) :=
  if dest = "automat_on_air" then
    some { d with state := dest, onAir := cfg.automatSel }
  else if dest = "studio_X_on_air" then
    match d.x with
    | some s => some { d with state := dest, onAir := cfg.selVal s }
    | none => none
  else
    some { d with state := dest }

/-- The slot clearing of `_after_state_change` (dispatcher.py 272-275):
for each token in {X, Y} absent from the destination name, empty the
corresponding role slot. -/
def afterState (dest : String) (d : DispState σ) : DispState σ :=
  let d1 := if strContains dest "X" then d else { d with x := none }
  if strContains dest "Y" then d1 else { d1 with y := none }

/-- Execution of one matched transition row for trigger `t`:
role binding, the flagged swap, the state change with enter callbacks,
and the slot clearing, in hook order. -/
def applyRow (cfg : DispCfg σ) (row : TransRow) (t : String)
    (ev : Option (ButtonEvent σ)) (d : DispState σ) : Option (DispState σ) :=
  let d1 := bindFromButton t ev d
  let d2 := if row.switchToY then prepareYtoX d1 else d1
  (enterState cfg row.dest d2).map (afterState row.dest)

/-- Firing trigger `t` (with an optional button event) against the
machine: an automatic `to_<state>` trigger matches from any source; an
explicitly added row matches by trigger and source; otherwise the
trigger is silently ignored. -/
def fireTrigger (cfg : DispCfg σ) (d : DispState σ) (t : String)
    (ev : Option (ButtonEvent σ)) : Option (DispState σ) :=
  match autoDest t with
  | some dest => applyRow cfg ⟨t, d.state, dest, false⟩ t ev d
  | none =>
    match findRow d.state t with
    | some row => applyRow cfg row t ev d
    | none => some d

/-- The role-suffix derivation of `_process_studio_button_events`
(dispatcher.py 299-310). -/
def deriveAppend (x y : Option σ) (studio : σ) [DecidableEq σ] : Option String :=
  if x = none then some "_X"
  else if x = some studio then some "_X"
  else if y = none ∨ y = some studio then some "_Y"
  else none

/-- The trigger name the event consumer would fire for a queued button
event, `event.button.name + append`, or `none` when the press maps to
no suffix and is dropped without reaching the machine. -/
def firedTrigger [DecidableEq σ] (d : DispState σ) (ev : ButtonEvent σ) :
    Option String :=
  (deriveAppend d.x d.y ev.studio).map fun suf => ev.button.name ++ suf

/-- Consumption of one queued button event by
`_process_studio_button_events`: derive the suffix and fire the
combined trigger with the event attached, or leave everything unchanged
when no suffix is derived. -/
def processButtonEvent [DecidableEq σ] (cfg : DispCfg σ) (d : DispState σ)
    (ev : ButtonEvent σ) : Option (DispState σ) :=
  match firedTrigger d ev with
  | some t => fireTrigger cfg d t (some ev)
  | none => some d

/-- The triggers fired by the three timer coroutines. -/
def timeoutTriggers : List String :=
  ["next_hour", "immediate_state_timeout", "immediate_release_timeout"]

/-- The dispatcher states reachable from start-up by consuming button
events of registered studios and firings of the timer coroutines. -/
inductive Reaches [DecidableEq σ] (cfg : DispCfg σ) : DispState σ → Prop where
  | init : Reaches cfg (initialState cfg)
  | button (d d' : DispState σ) (ev : ButtonEvent σ) :
      Reaches cfg d → ev.studio ∈ cfg.studios →
      processButtonEvent cfg d ev = some d' → Reaches cfg d'
  | timeout (d d' : DispState σ) (t : String) :
      Reaches cfg d → t ∈ timeoutTriggers →
      fireTrigger cfg d t none = some d' → Reaches cfg d'

/-! ## The audited dispatcher invariant

`Dispatcher._audit_state` checks after every transition that the role
slots agree with the tokens of the current state name; together with
the on-air discipline of the enter callbacks this is the invariant of
all reachable dispatcher states.
-/

/-- The state names a running dispatcher can be in (the `noop` sink is
never entered: no table row targets it and the dispatcher never fires a
`to_noop` trigger). -/
def coreStates : List String :=
  [ "automat_on_air",
    "automat_on_air_immediate_state_X",
    "from_automat_on_air_change_to_studio_X_on_next_hour",
    "studio_X_on_air",
    "from_studio_X_on_air_change_to_automat_on_next_hour",
    "studio_X_on_air_immediate_state",
    "studio_X_on_air_immediate_release",
    "from_studio_X_on_air_change_to_studio_Y_on_next_hour",
    "studio_X_on_air_studio_Y_takeover_request" ]

/-- The invariant of reachable dispatcher states: the state is a core
state; a role slot is bound exactly when its token occurs in the state
name; bound slots are distinct registered studios; and the on-air
selector value is the automat's in the automat-on-air family and the
X studio's otherwise. -/
structure Inv (cfg : DispCfg σ) (d : DispState σ) : Prop where
  mem : d.state ∈ coreStates
  xIff : strContains d.state "X" = true ↔ d.x ≠ none
  yIff : strContains d.state "Y" = true ↔ d.y ≠ none
  dist : ∀ a b, d.x = some a → d.y = some b → a ≠ b
  xReg : ∀ a, d.x = some a → a ∈ cfg.studios
  yReg : ∀ a, d.y = some a → a ∈ cfg.studios
  airAut : strContains d.state "automat_on_air" = true → d.onAir = cfg.automatSel
  airStu : strContains d.state "automat_on_air" = false →
    ∃ a, d.x = some a ∧ d.onAir = cfg.selVal a

/-- Builder for the invariant at `automat_on_air` with empty slots. -/
theorem Inv.mkAutomat {cfg : DispCfg σ} {o : Nat} (h : o = cfg.automatSel) :
    Inv cfg ⟨"automat_on_air", none, none, o⟩ := by
  refine ⟨?_, ?_, ?_, fun a b ha _ => Option.noConfusion ha,
    fun a ha => Option.noConfusion ha, fun a ha => Option.noConfusion ha,
    fun _ => h, fun hf => ?_⟩
  · show ("automat_on_air" : String) ∈ coreStates
    decide
  · show strContains "automat_on_air" "X" = true ↔ (none : Option σ) ≠ none
    simp [show strContains "automat_on_air" "X" = false from rfl]
  · show strContains "automat_on_air" "Y" = true ↔ (none : Option σ) ≠ none
    simp [show strContains "automat_on_air" "Y" = false from rfl]
  · have hf2 : strContains "automat_on_air" "automat_on_air" = false := hf
    exact absurd hf2 (by simp [show strContains "automat_on_air" "automat_on_air" = true from rfl])

/-- Builder for the invariant at an automat-family state binding only
the X slot. -/
theorem Inv.mkAutomatX {cfg : DispCfg σ} {dest : String} {s : σ} {o : Nat}
    (h1 : dest ∈ coreStates) (h2 : strContains dest "X" = true)
    (h3 : strContains dest "Y" = false)
    (h4 : strContains dest "automat_on_air" = true)
    (h5 : s ∈ cfg.studios) (h6 : o = cfg.automatSel) :
    Inv cfg ⟨dest, some s, none, o⟩ := by
  refine ⟨h1, ?_, ?_, fun a b _ hb => Option.noConfusion hb, ?_,
    fun a ha => Option.noConfusion ha, fun _ => h6, fun hf => ?_⟩
  · show strContains dest "X" = true ↔ (some s : Option σ) ≠ none
    simp [h2]
  · show strContains dest "Y" = true ↔ (none : Option σ) ≠ none
    simp [h3]
  · intro a ha; injection ha with h; exact h ▸ h5
  · have hf2 : strContains dest "automat_on_air" = false := hf
    exact absurd (h4.symm.trans hf2) (by simp)

/-- Builder for the invariant at a studio-family state binding only the
X slot. -/
theorem Inv.mkStudioX {cfg : DispCfg σ} {dest : String} {s : σ} {o : Nat}
    (h1 : dest ∈ coreStates) (h2 : strContains dest "X" = true)
    (h3 : strContains dest "Y" = false)
    (h4 : strContains dest "automat_on_air" = false)
    (h5 : s ∈ cfg.studios) (h6 : o = cfg.selVal s) :
    Inv cfg ⟨dest, some s, none, o⟩ := by
  refine ⟨h1, ?_, ?_, fun a b _ hb => Option.noConfusion hb, ?_,
    fun a ha => Option.noConfusion ha, fun hf => ?_, fun _ => ⟨s, rfl, h6⟩⟩
  · show strContains dest "X" = true ↔ (some s : Option σ) ≠ none
    simp [h2]
  · show strContains dest "Y" = true ↔ (none : Option σ) ≠ none
    simp [h3]
  · intro a ha; injection ha with h; exact h ▸ h5
  · have hf2 : strContains dest "automat_on_air" = true := hf
    exact absurd (h4.symm.trans hf2) (by simp)

/-- Builder for the invariant at a studio-family state binding both
slots. -/
theorem Inv.mkXY {cfg : DispCfg σ} {dest : String} {a c : σ} {o : Nat}
    (h1 : dest ∈ coreStates) (h2 : strContains dest "X" = true)
    (h3 : strContains dest "Y" = true)
    (h4 : strContains dest "automat_on_air" = false)
    (hne : a ≠ c) (h5 : a ∈ cfg.studios) (h6 : c ∈ cfg.studios)
    (h7 : o = cfg.selVal a) :
    Inv cfg ⟨dest, some a, some c, o⟩ := by
  refine ⟨h1, ?_, ?_, ?_, ?_, ?_, fun hf => ?_, fun _ => ⟨a, rfl, h7⟩⟩
  · show strContains dest "X" = true ↔ (some a : Option σ) ≠ none
    simp [h2]
  · show strContains dest "Y" = true ↔ (some c : Option σ) ≠ none
    simp [h3]
  · intro p q hp hq; injection hp with hp; injection hq with hq
    subst hp; subst hq; exact hne
  · intro p hp; injection hp with h; exact h ▸ h5
  · intro p hp; injection hp with h; exact h ▸ h6
  · have hf2 : strContains dest "automat_on_air" = true := hf
    exact absurd (h4.symm.trans hf2) (by simp)

/-- An option forced empty by a false containment test. -/
theorem opt_none_of_false_iff {x : Option σ} (h : false = true ↔ x ≠ none) :
    x = none := by
  rcases x with _ | a
  · rfl
  · exact absurd (h.mpr (by simp)) (by simp)

/-- An option forced non-empty by a true containment test. -/
theorem opt_some_of_true_iff {x : Option σ} (h : true = true ↔ x ≠ none) :
    ∃ a, x = some a := by
  rcases x with _ | a
  · exact absurd rfl (h.mp rfl)
  · exact ⟨a, rfl⟩

/-! ## Evaluation rules for the suffix derivation -/

theorem deriveAppend_none [DecidableEq σ] (y : Option σ) (s : σ) :
    deriveAppend none y s = some "_X" := by
  simp [deriveAppend]

theorem deriveAppend_self [DecidableEq σ] (y : Option σ) (a : σ) :
    deriveAppend (some a) y a = some "_X" := by
  simp [deriveAppend]

theorem deriveAppend_second_none [DecidableEq σ] (a s : σ) (h : s ≠ a) :
    deriveAppend (some a) none s = some "_Y" := by
  simp [deriveAppend, Ne.symm h]

theorem deriveAppend_second_self [DecidableEq σ] (a c : σ) (h : c ≠ a) :
    deriveAppend (some a) (some c) c = some "_Y" := by
  simp [deriveAppend, Ne.symm h]

theorem deriveAppend_third [DecidableEq σ] (a c s : σ) (h1 : s ≠ a) (h2 : s ≠ c) :
    deriveAppend (some a) (some c) s = none := by
  simp [deriveAppend, Ne.symm h1, Ne.symm h2]

theorem processButtonEvent_of_append [DecidableEq σ] {cfg : DispCfg σ}
    {d : DispState σ} {ev : ButtonEvent σ} {suf : String}
    (h : deriveAppend d.x d.y ev.studio = some suf) :
    processButtonEvent cfg d ev = fireTrigger cfg d (ev.button.name ++ suf) (some ev) := by
  simp [processButtonEvent, firedTrigger, h]

theorem processButtonEvent_of_no_append [DecidableEq σ] {cfg : DispCfg σ}
    {d : DispState σ} {ev : ButtonEvent σ}
    (h : deriveAppend d.x d.y ev.studio = none) :
    processButtonEvent cfg d ev = some d := by
  simp [processButtonEvent, firedTrigger, h]

/-- Reassembly of the invariant from its components. -/
theorem Inv.rebuild {cfg : DispCfg σ} {st : String} {x y : Option σ} {o : Nat}
    (hmem : st ∈ coreStates)
    (hX : strContains st "X" = true ↔ x ≠ none)
    (hY : strContains st "Y" = true ↔ y ≠ none)
    (hdist : ∀ a b, x = some a → y = some b → a ≠ b)
    (hxReg : ∀ a, x = some a → a ∈ cfg.studios)
    (hyReg : ∀ a, y = some a → a ∈ cfg.studios)
    (hairA : strContains st "automat_on_air" = true → o = cfg.automatSel)
    (hairS : strContains st "automat_on_air" = false →
      ∃ a, x = some a ∧ o = cfg.selVal a) :
    Inv cfg ⟨st, x, y, o⟩ :=
  ⟨hmem, hX, hY, hdist, hxReg, hyReg, hairA, hairS⟩

/-- Preservation of the invariant by one consumed button event. -/
theorem inv_button {σ : Type} [DecidableEq σ] {cfg : DispCfg σ} {d d' : DispState σ}
    {ev : ButtonEvent σ} (hI : Inv cfg d) (hsReg : ev.studio ∈ cfg.studios)
    (hp : processButtonEvent cfg d ev = some d') : Inv cfg d' := by
  obtain ⟨st, x, y, o⟩ := d
  obtain ⟨s, b⟩ := ev
  obtain ⟨hmem, hX, hY, hdist, hxReg, hyReg, hairA, hairS⟩ := hI
  simp only [coreStates, List.mem_cons, List.not_mem_nil, or_false] at hmem
  rcases hmem with rfl | rfl | rfl | rfl | rfl | rfl | rfl | rfl | rfl
  · -- automat_on_air: slots empty, every press maps to the X suffix
    have hx : x = none := opt_none_of_false_iff hX
    have hy : y = none := opt_none_of_false_iff hY
    subst hx; subst hy
    have ho : o = cfg.automatSel := hairA rfl
    subst ho
    rw [processButtonEvent_of_append (deriveAppend_none none s)] at hp
    cases b
    · obtain rfl := Option.some.inj
        (show some (⟨"from_automat_on_air_change_to_studio_X_on_next_hour", some s, none,
          cfg.automatSel⟩ : DispState σ) = some d' from hp)
      exact Inv.mkAutomatX (by decide) (by decide) (by decide) (by decide) hsReg rfl
    · obtain rfl := Option.some.inj
        (show some (⟨"automat_on_air", none, none, cfg.automatSel⟩ : DispState σ)
          = some d' from hp)
      exact Inv.mkAutomat rfl
    · obtain rfl := Option.some.inj
        (show some (⟨"automat_on_air_immediate_state_X", some s, none,
          cfg.automatSel⟩ : DispState σ) = some d' from hp)
      exact Inv.mkAutomatX (by decide) (by decide) (by decide) (by decide) hsReg rfl
  · -- automat_on_air_immediate_state_X
    obtain ⟨a, hxa⟩ := opt_some_of_true_iff hX
    have hy : y = none := opt_none_of_false_iff hY
    subst hxa; subst hy
    have ho : o = cfg.automatSel := hairA rfl
    subst ho
    rcases eq_or_ne s a with heq | hne
    · subst heq
      rw [processButtonEvent_of_append (deriveAppend_self none s)] at hp
      cases b
      · obtain rfl := Option.some.inj
          (show some (⟨"studio_X_on_air", some s, none, cfg.selVal s⟩ : DispState σ)
            = some d' from hp)
        exact Inv.mkStudioX (by decide) (by decide) (by decide) (by decide) hsReg rfl
      · obtain rfl := Option.some.inj
          (show some (⟨"automat_on_air", none, none, cfg.automatSel⟩ : DispState σ)
            = some d' from hp)
        exact Inv.mkAutomat rfl
      · obtain rfl := Option.some.inj
          (show some (⟨"automat_on_air", none, none, cfg.automatSel⟩ : DispState σ)
            = some d' from hp)
        exact Inv.mkAutomat rfl
    · rw [processButtonEvent_of_append (deriveAppend_second_none a s hne)] at hp
      cases b
      all_goals
        obtain rfl := Option.some.inj
          (show some (⟨"automat_on_air_immediate_state_X", some a, none,
            cfg.automatSel⟩ : DispState σ) = some d' from hp)
        exact Inv.mkAutomatX (by decide) (by decide) (by decide) (by decide) (hxReg a rfl) rfl
  · -- from_automat_on_air_change_to_studio_X_on_next_hour
    obtain ⟨a, hxa⟩ := opt_some_of_true_iff hX
    have hy : y = none := opt_none_of_false_iff hY
    subst hxa; subst hy
    have ho : o = cfg.automatSel := hairA rfl
    subst ho
    rcases eq_or_ne s a with heq | hne
    · subst heq
      rw [processButtonEvent_of_append (deriveAppend_self none s)] at hp
      cases b
      · obtain rfl := Option.some.inj
          (show some (⟨"automat_on_air", none, none, cfg.automatSel⟩ : DispState σ)
            = some d' from hp)
        exact Inv.mkAutomat rfl
      · obtain rfl := Option.some.inj
          (show some (⟨"automat_on_air", none, none, cfg.automatSel⟩ : DispState σ)
            = some d' from hp)
        exact Inv.mkAutomat rfl
      · obtain rfl := Option.some.inj
          (show some (⟨"from_automat_on_air_change_to_studio_X_on_next_hour", some s, none,
            cfg.automatSel⟩ : DispState σ) = some d' from hp)
        exact Inv.mkAutomatX (by decide) (by decide) (by decide) (by decide) hsReg rfl
    · rw [processButtonEvent_of_append (deriveAppend_second_none a s hne)] at hp
      cases b
      all_goals
        obtain rfl := Option.some.inj
          (show some (⟨"from_automat_on_air_change_to_studio_X_on_next_hour", some a, none,
            cfg.automatSel⟩ : DispState σ) = some d' from hp)
        exact Inv.mkAutomatX (by decide) (by decide) (by decide) (by decide) (hxReg a rfl) rfl
  · -- studio_X_on_air
    obtain ⟨a, hxa, ho⟩ := hairS rfl
    have hy : y = none := opt_none_of_false_iff hY
    subst hxa; subst hy; subst ho
    rcases eq_or_ne s a with heq | hne
    · subst heq
      rw [processButtonEvent_of_append (deriveAppend_self none s)] at hp
      cases b
      · obtain rfl := Option.some.inj
          (show some (⟨"studio_X_on_air", some s, none, cfg.selVal s⟩ : DispState σ)
            = some d' from hp)
        exact Inv.mkStudioX (by decide) (by decide) (by decide) (by decide) hsReg rfl
      · obtain rfl := Option.some.inj
          (show some (⟨"from_studio_X_on_air_change_to_automat_on_next_hour", some s, none,
            cfg.selVal s⟩ : DispState σ) = some d' from hp)
        exact Inv.mkStudioX (by decide) (by decide) (by decide) (by decide) hsReg rfl
      · obtain rfl := Option.some.inj
          (show some (⟨"studio_X_on_air_immediate_state", some s, none,
            cfg.selVal s⟩ : DispState σ) = some d' from hp)
        exact Inv.mkStudioX (by decide) (by decide) (by decide) (by decide) hsReg rfl
    · rw [processButtonEvent_of_append (deriveAppend_second_none a s hne)] at hp
      cases b
      · obtain rfl := Option.some.inj
          (show some (⟨"studio_X_on_air_studio_Y_takeover_request", some a, some s,
            cfg.selVal a⟩ : DispState σ) = some d' from hp)
        exact Inv.mkXY (by decide) (by decide) (by decide) (by decide) (Ne.symm hne)
          (hxReg a rfl) hsReg rfl
      · obtain rfl := Option.some.inj
          (show some (⟨"studio_X_on_air", some a, none, cfg.selVal a⟩ : DispState σ)
            = some d' from hp)
        exact Inv.mkStudioX (by decide) (by decide) (by decide) (by decide) (hxReg a rfl) rfl
      · obtain rfl := Option.some.inj
          (show some (⟨"studio_X_on_air", some a, none, cfg.selVal a⟩ : DispState σ)
            = some d' from hp)
        exact Inv.mkStudioX (by decide) (by decide) (by decide) (by decide) (hxReg a rfl) rfl
  · -- from_studio_X_on_air_change_to_automat_on_next_hour
    obtain ⟨a, hxa, ho⟩ := hairS rfl
    have hy : y = none := opt_none_of_false_iff hY
    subst hxa; subst hy; subst ho
    rcases eq_or_ne s a with heq | hne
    · subst heq
      rw [processButtonEvent_of_append (deriveAppend_self none s)] at hp
      cases b
      · obtain rfl := Option.some.inj
          (show some (⟨"studio_X_on_air", some s, none, cfg.selVal s⟩ : DispState σ)
            = some d' from hp)
        exact Inv.mkStudioX (by decide) (by decide) (by decide) (by decide) hsReg rfl
      · obtain rfl := Option.some.inj
          (show some (⟨"studio_X_on_air", some s, none, cfg.selVal s⟩ : DispState σ)
            = some d' from hp)
        exact Inv.mkStudioX (by decide) (by decide) (by decide) (by decide) hsReg rfl
      · obtain rfl := Option.some.inj
          (show some (⟨"from_studio_X_on_air_change_to_automat_on_next_hour", some s, none,
            cfg.selVal s⟩ : DispState σ) = some d' from hp)
        exact Inv.mkStudioX (by decide) (by decide) (by decide) (by decide) hsReg rfl
    · rw [processButtonEvent_of_append (deriveAppend_second_none a s hne)] at hp
      cases b
      · obtain rfl := Option.some.inj
          (show some (⟨"from_studio_X_on_air_change_to_studio_Y_on_next_hour", some a, some s,
            cfg.selVal a⟩ : DispState σ) = some d' from hp)
        exact Inv.mkXY (by decide) (by decide) (by decide) (by decide) (Ne.symm hne)
          (hxReg a rfl) hsReg rfl
      · obtain rfl := Option.some.inj
          (show some (⟨"from_studio_X_on_air_change_to_automat_on_next_hour", some a, none,
            cfg.selVal a⟩ : DispState σ) = some d' from hp)
        exact Inv.mkStudioX (by decide) (by decide) (by decide) (by decide) (hxReg a rfl) rfl
      · obtain rfl := Option.some.inj
          (show some (⟨"from_studio_X_on_air_change_to_automat_on_next_hour", some a, none,
            cfg.selVal a⟩ : DispState σ) = some d' from hp)
        exact Inv.mkStudioX (by decide) (by decide) (by decide) (by decide) (hxReg a rfl) rfl
  · -- studio_X_on_air_immediate_state
    obtain ⟨a, hxa, ho⟩ := hairS rfl
    have hy : y = none := opt_none_of_false_iff hY
    subst hxa; subst hy; subst ho
    rcases eq_or_ne s a with heq | hne
    · subst heq
      rw [processButtonEvent_of_append (deriveAppend_self none s)] at hp
      cases b
      · obtain rfl := Option.some.inj
          (show some (⟨"studio_X_on_air_immediate_state", some s, none,
            cfg.selVal s⟩ : DispState σ) = some d' from hp)
        exact Inv.mkStudioX (by decide) (by decide) (by decide) (by decide) hsReg rfl
      · obtain rfl := Option.some.inj
          (show some (⟨"studio_X_on_air_immediate_release", some s, none,
            cfg.selVal s⟩ : DispState σ) = some d' from hp)
        exact Inv.mkStudioX (by decide) (by decide) (by decide) (by decide) hsReg rfl
      · obtain rfl := Option.some.inj
          (show some (⟨"studio_X_on_air", some s, none, cfg.selVal s⟩ : DispState σ)
            = some d' from hp)
        exact Inv.mkStudioX (by decide) (by decide) (by decide) (by decide) hsReg rfl
    · rw [processButtonEvent_of_append (deriveAppend_second_none a s hne)] at hp
      cases b
      all_goals
        obtain rfl := Option.some.inj
          (show some (⟨"studio_X_on_air_immediate_state", some a, none,
            cfg.selVal a⟩ : DispState σ) = some d' from hp)
        exact Inv.mkStudioX (by decide) (by decide) (by decide) (by decide) (hxReg a rfl) rfl
  · -- studio_X_on_air_immediate_release
    obtain ⟨a, hxa, ho⟩ := hairS rfl
    have hy : y = none := opt_none_of_false_iff hY
    subst hxa; subst hy; subst ho
    rcases eq_or_ne s a with heq | hne
    · subst heq
      rw [processButtonEvent_of_append (deriveAppend_self none s)] at hp
      cases b
      · obtain rfl := Option.some.inj
          (show some (⟨"studio_X_on_air_immediate_state", some s, none,
            cfg.selVal s⟩ : DispState σ) = some d' from hp)
        exact Inv.mkStudioX (by decide) (by decide) (by decide) (by decide) hsReg rfl
      · obtain rfl := Option.some.inj
          (show some (⟨"studio_X_on_air_immediate_state", some s, none,
            cfg.selVal s⟩ : DispState σ) = some d' from hp)
        exact Inv.mkStudioX (by decide) (by decide) (by decide) (by decide) hsReg rfl
      · obtain rfl := Option.some.inj
          (show some (⟨"studio_X_on_air_immediate_release", some s, none,
            cfg.selVal s⟩ : DispState σ) = some d' from hp)
        exact Inv.mkStudioX (by decide) (by decide) (by decide) (by decide) hsReg rfl
    · rw [processButtonEvent_of_append (deriveAppend_second_none a s hne)] at hp
      cases b
      · -- takeover_Y runs the flagged row: swap, then enter studio_X_on_air
        obtain rfl := Option.some.inj
          (show some (⟨"studio_X_on_air", some s, none, cfg.selVal s⟩ : DispState σ)
            = some d' from hp)
        exact Inv.mkStudioX (by decide) (by decide) (by decide) (by decide) hsReg rfl
      · obtain rfl := Option.some.inj
          (show some (⟨"studio_X_on_air_immediate_release", some a, none,
            cfg.selVal a⟩ : DispState σ) = some d' from hp)
        exact Inv.mkStudioX (by decide) (by decide) (by decide) (by decide) (hxReg a rfl) rfl
      · obtain rfl := Option.some.inj
          (show some (⟨"studio_X_on_air_immediate_release", some a, none,
            cfg.selVal a⟩ : DispState σ) = some d' from hp)
        exact Inv.mkStudioX (by decide) (by decide) (by decide) (by decide) (hxReg a rfl) rfl
  · -- from_studio_X_on_air_change_to_studio_Y_on_next_hour
    obtain ⟨a, hxa, ho⟩ := hairS rfl
    obtain ⟨c, hyc⟩ := opt_some_of_true_iff hY
    subst hxa; subst hyc; subst ho
    have hac : a ≠ c := hdist a c rfl rfl
    rcases eq_or_ne s a with heq | hne
    · subst heq
      rw [processButtonEvent_of_append (deriveAppend_self (some c) s)] at hp
      cases b
      all_goals
        obtain rfl := Option.some.inj
          (show some (⟨"from_studio_X_on_air_change_to_studio_Y_on_next_hour", some s, some c,
            cfg.selVal s⟩ : DispState σ) = some d' from hp)
        exact Inv.mkXY (by decide) (by decide) (by decide) (by decide) hac hsReg
          (hyReg c rfl) rfl
    · rcases eq_or_ne s c with heqc | hnec
      · subst heqc
        rw [processButtonEvent_of_append (deriveAppend_second_self a s hne)] at hp
        cases b
        · obtain rfl := Option.some.inj
            (show some (⟨"from_studio_X_on_air_change_to_automat_on_next_hour", some a, none,
              cfg.selVal a⟩ : DispState σ) = some d' from hp)
          exact Inv.mkStudioX (by decide) (by decide) (by decide) (by decide) (hxReg a rfl) rfl
        · obtain rfl := Option.some.inj
            (show some (⟨"from_studio_X_on_air_change_to_automat_on_next_hour", some a, none,
              cfg.selVal a⟩ : DispState σ) = some d' from hp)
          exact Inv.mkStudioX (by decide) (by decide) (by decide) (by decide) (hxReg a rfl) rfl
        · obtain rfl := Option.some.inj
            (show some (⟨"from_studio_X_on_air_change_to_studio_Y_on_next_hour", some a, some s,
              cfg.selVal a⟩ : DispState σ) = some d' from hp)
          exact Inv.mkXY (by decide) (by decide) (by decide) (by decide) hac
            (hxReg a rfl) hsReg rfl
      · rw [processButtonEvent_of_no_append (deriveAppend_third a c s hne hnec)] at hp
        obtain rfl := Option.some.inj hp
        exact Inv.rebuild (by decide) hX hY hdist hxReg hyReg hairA hairS
  · -- studio_X_on_air_studio_Y_takeover_request
    obtain ⟨a, hxa, ho⟩ := hairS rfl
    obtain ⟨c, hyc⟩ := opt_some_of_true_iff hY
    subst hxa; subst hyc; subst ho
    have hac : a ≠ c := hdist a c rfl rfl
    rcases eq_or_ne s a with heq | hne
    · subst heq
      rw [processButtonEvent_of_append (deriveAppend_self (some c) s)] at hp
      cases b
      · obtain rfl := Option.some.inj
          (show some (⟨"studio_X_on_air_studio_Y_takeover_request", some s, some c,
            cfg.selVal s⟩ : DispState σ) = some d' from hp)
        exact Inv.mkXY (by decide) (by decide) (by decide) (by decide) hac hsReg
          (hyReg c rfl) rfl
      · obtain rfl := Option.some.inj
          (show some (⟨"from_studio_X_on_air_change_to_studio_Y_on_next_hour", some s, some c,
            cfg.selVal s⟩ : DispState σ) = some d' from hp)
        exact Inv.mkXY (by decide) (by decide) (by decide) (by decide) hac hsReg
          (hyReg c rfl) rfl
      · obtain rfl := Option.some.inj
          (show some (⟨"studio_X_on_air_studio_Y_takeover_request", some s, some c,
            cfg.selVal s⟩ : DispState σ) = some d' from hp)
        exact Inv.mkXY (by decide) (by decide) (by decide) (by decide) hac hsReg
          (hyReg c rfl) rfl
    · rcases eq_or_ne s c with heqc | hnec
      · subst heqc
        rw [processButtonEvent_of_append (deriveAppend_second_self a s hne)] at hp
        cases b
        · obtain rfl := Option.some.inj
            (show some (⟨"studio_X_on_air", some a, none, cfg.selVal a⟩ : DispState σ)
              = some d' from hp)
          exact Inv.mkStudioX (by decide) (by decide) (by decide) (by decide) (hxReg a rfl) rfl
        · obtain rfl := Option.some.inj
            (show some (⟨"studio_X_on_air", some a, none, cfg.selVal a⟩ : DispState σ)
              = some d' from hp)
          exact Inv.mkStudioX (by decide) (by decide) (by decide) (by decide) (hxReg a rfl) rfl
        · obtain rfl := Option.some.inj
            (show some (⟨"studio_X_on_air_studio_Y_takeover_request", some a, some s,
              cfg.selVal a⟩ : DispState σ) = some d' from hp)
          exact Inv.mkXY (by decide) (by decide) (by decide) (by decide) hac
            (hxReg a rfl) hsReg rfl
      · rw [processButtonEvent_of_no_append (deriveAppend_third a c s hne hnec)] at hp
        obtain rfl := Option.some.inj hp
        exact Inv.rebuild (by decide) hX hY hdist hxReg hyReg hairA hairS

/-- Preservation of the invariant by a timer firing.  The timer
triggers carry no button event, so the role binding of the before hook
is skipped; every trigger without a matching row is ignored. -/
theorem inv_timeout {σ : Type} [DecidableEq σ] {cfg : DispCfg σ} {d d' : DispState σ}
    {t : String} (hI : Inv cfg d) (ht : t ∈ timeoutTriggers)
    (hp : fireTrigger cfg d t none = some d') : Inv cfg d' := by
  obtain ⟨st, x, y, o⟩ := d
  obtain ⟨hmem, hX, hY, hdist, hxReg, hyReg, hairA, hairS⟩ := hI
  simp only [timeoutTriggers, List.mem_cons, List.not_mem_nil, or_false] at ht
  simp only [coreStates, List.mem_cons, List.not_mem_nil, or_false] at hmem
  rcases ht with rfl | rfl | rfl
  · -- next_hour
    rcases hmem with rfl | rfl | rfl | rfl | rfl | rfl | rfl | rfl | rfl
    · obtain rfl := Option.some.inj hp
      exact Inv.rebuild (by decide) hX hY hdist hxReg hyReg hairA hairS
    · obtain rfl := Option.some.inj hp
      exact Inv.rebuild (by decide) hX hY hdist hxReg hyReg hairA hairS
    · -- from_automat_on_air_change_to_studio_X_on_next_hour to studio_X_on_air
      obtain ⟨a, hxa⟩ := opt_some_of_true_iff hX
      have hy : y = none := opt_none_of_false_iff hY
      subst hxa; subst hy
      obtain rfl := Option.some.inj
        (show some (⟨"studio_X_on_air", some a, none, cfg.selVal a⟩ : DispState σ)
          = some d' from hp)
      exact Inv.mkStudioX (by decide) (by decide) (by decide) (by decide) (hxReg a rfl) rfl
    · obtain rfl := Option.some.inj hp
      exact Inv.rebuild (by decide) hX hY hdist hxReg hyReg hairA hairS
    · -- from_studio_X_on_air_change_to_automat_on_next_hour to automat_on_air
      obtain rfl := Option.some.inj
        (show some (⟨"automat_on_air", none, none, cfg.automatSel⟩ : DispState σ)
          = some d' from hp)
      exact Inv.mkAutomat rfl
    · obtain rfl := Option.some.inj hp
      exact Inv.rebuild (by decide) hX hY hdist hxReg hyReg hairA hairS
    · obtain rfl := Option.some.inj hp
      exact Inv.rebuild (by decide) hX hY hdist hxReg hyReg hairA hairS
    · -- from_studio_X_on_air_change_to_studio_Y_on_next_hour: flagged row to studio_X_on_air
      obtain ⟨c, hyc⟩ := opt_some_of_true_iff hY
      subst hyc
      obtain rfl := Option.some.inj
        (show some (⟨"studio_X_on_air", some c, none, cfg.selVal c⟩ : DispState σ)
          = some d' from hp)
      exact Inv.mkStudioX (by decide) (by decide) (by decide) (by decide) (hyReg c rfl) rfl
    · obtain rfl := Option.some.inj hp
      exact Inv.rebuild (by decide) hX hY hdist hxReg hyReg hairA hairS
  · -- immediate_state_timeout
    rcases hmem with rfl | rfl | rfl | rfl | rfl | rfl | rfl | rfl | rfl
    · obtain rfl := Option.some.inj hp
      exact Inv.rebuild (by decide) hX hY hdist hxReg hyReg hairA hairS
    · -- automat_on_air_immediate_state_X to automat_on_air
      obtain rfl := Option.some.inj
        (show some (⟨"automat_on_air", none, none, cfg.automatSel⟩ : DispState σ)
          = some d' from hp)
      exact Inv.mkAutomat rfl
    · obtain rfl := Option.some.inj hp
      exact Inv.rebuild (by decide) hX hY hdist hxReg hyReg hairA hairS
    · obtain rfl := Option.some.inj hp
      exact Inv.rebuild (by decide) hX hY hdist hxReg hyReg hairA hairS
    · obtain rfl := Option.some.inj hp
      exact Inv.rebuild (by decide) hX hY hdist hxReg hyReg hairA hairS
    · -- studio_X_on_air_immediate_state to studio_X_on_air
      obtain ⟨a, hxa, ho⟩ := hairS rfl
      have hy : y = none := opt_none_of_false_iff hY
      subst hxa; subst hy; subst ho
      obtain rfl := Option.some.inj
        (show some (⟨"studio_X_on_air", some a, none, cfg.selVal a⟩ : DispState σ)
          = some d' from hp)
      exact Inv.mkStudioX (by decide) (by decide) (by decide) (by decide) (hxReg a rfl) rfl
    · obtain rfl := Option.some.inj hp
      exact Inv.rebuild (by decide) hX hY hdist hxReg hyReg hairA hairS
    · obtain rfl := Option.some.inj hp
      exact Inv.rebuild (by decide) hX hY hdist hxReg hyReg hairA hairS
    · obtain rfl := Option.some.inj hp
      exact Inv.rebuild (by decide) hX hY hdist hxReg hyReg hairA hairS
  · -- immediate_release_timeout
    rcases hmem with rfl | rfl | rfl | rfl | rfl | rfl | rfl | rfl | rfl
    · obtain rfl := Option.some.inj hp
      exact Inv.rebuild (by decide) hX hY hdist hxReg hyReg hairA hairS
    · obtain rfl := Option.some.inj hp
      exact Inv.rebuild (by decide) hX hY hdist hxReg hyReg hairA hairS
    · obtain rfl := Option.some.inj hp
      exact Inv.rebuild (by decide) hX hY hdist hxReg hyReg hairA hairS
    · obtain rfl := Option.some.inj hp
      exact Inv.rebuild (by decide) hX hY hdist hxReg hyReg hairA hairS
    · obtain rfl := Option.some.inj hp
      exact Inv.rebuild (by decide) hX hY hdist hxReg hyReg hairA hairS
    · obtain rfl := Option.some.inj hp
      exact Inv.rebuild (by decide) hX hY hdist hxReg hyReg hairA hairS
    · -- studio_X_on_air_immediate_release to automat_on_air
      obtain rfl := Option.some.inj
        (show some (⟨"automat_on_air", none, none, cfg.automatSel⟩ : DispState σ)
          = some d' from hp)
      exact Inv.mkAutomat rfl
    · obtain rfl := Option.some.inj hp
      exact Inv.rebuild (by decide) hX hY hdist hxReg hyReg hairA hairS
    · obtain rfl := Option.some.inj hp
      exact Inv.rebuild (by decide) hX hY hdist hxReg hyReg hairA hairS

/-- The invariant holds right after `__init__`. -/
theorem inv_initial {σ : Type} (cfg : DispCfg σ) : Inv cfg (initialState cfg) :=
  Inv.mkAutomat rfl

/-- Every reachable dispatcher state satisfies the audited invariant. -/
theorem inv_of_reaches {σ : Type} [DecidableEq σ] {cfg : DispCfg σ} {d : DispState σ}
    (h : Reaches cfg d) : Inv cfg d := by
  induction h with
  | init => exact inv_initial cfg
  | button d1 d2 ev _ hreg hp ih => exact inv_button ih hreg hp
  | timeout d1 d2 t _ ht hp ih => exact inv_timeout ih ht hp

/-! ## Timer task slots (dispatcher.py 370-460)

Each of the three timers is an `Optional[asyncio.Task]` slot.  A task
is identified here by a numeric id (so that restarting is observable)
and a done flag.  Stopping cancels the task and clears the slot.
Starting `next_hour` and `immediate_state` creates a fresh task unless
the slot holds a task that is not done; starting `immediate_release`
returns early exactly when the slot holds a task that IS done
(dispatcher.py line 441), the opposite guard of its two siblings.
-/

/-- A timer task handle: identity plus its done flag. -/
structure TimerTask where
  id : Nat
  done : Bool
deriving DecidableEq, Repr

/-- The guard of `_start_next_hour_timer` (dispatcher.py 370-375):
return if a held task is not done, else create a fresh task. -/
def startNextHourTimer (slot : Option TimerTask) (fresh : Nat) : Option TimerTask :=
  match slot with
  | some task => if !task.done then some task else some ⟨fresh, false⟩
  | none => some ⟨fresh, false⟩

/-- The guard of `_start_immediate_state_timer` (dispatcher.py
414-418), identical in shape to the next-hour one. -/
def startImmediateStateTimer (slot : Option TimerTask) (fresh : Nat) :
    Option TimerTask :=
  match slot with
  | some task => if !task.done then some task else some ⟨fresh, false⟩
  | none => some ⟨fresh, false⟩

/-- The guard of `_start_immediate_release_timer` (dispatcher.py
438-444): `if self._immediate_release_timer and
self._immediate_release_timer.done(): return`, then create a fresh
task. -/
def startImmediateReleaseTimer (slot : Option TimerTask) (fresh : Nat) :
    Option TimerTask :=
  match slot with
  | some task => if task.done then some task else some ⟨fresh, false⟩
  | none => some ⟨fresh, false⟩

/-- The stop routines (dispatcher.py 408-412, 432-436, 456-460): cancel
any held task and clear the slot. -/
def stopTimer (slot : Option TimerTask) : Option TimerTask :=
  match slot with
  | some _ => none
  | none => none

/-- Per-transition discipline of one timer slot, from
`_before_state_change` (stop the timer when its name is not contained
in the destination state name) and `_after_state_change` (start it when
it is), with `start` one of the three start guards above. -/
def timerAfterTransition (start : Option TimerTask → Nat → Option TimerTask)
    (timerName dest : String) (slot : Option TimerTask) (fresh : Nat) :
    Option TimerTask :=
  let slot1 := if strContains dest timerName then slot else stopTimer slot
  if strContains dest timerName then start slot1 fresh else slot1

/-! ## calc_next_hour (utils.py)

Datetimes are modelled as microseconds since the epoch in UTC (the
function first converts its argument to UTC; with a whole-hour zero
offset, zeroing minute, second and microsecond is subtraction of the
remainder modulo one hour).  `relativedelta(hours=1, minute=0,
second=0, microsecond=0)` applies the absolute fields first and then
adds one hour.
-/

/-- Microseconds per hour. -/
def usPerHour : Nat := 3600000000

/-- calc_next_hour of utils.py on a UTC timestamp in microseconds:
zero the sub-hour fields, add one hour, and subtract an hour again if
the result is more than an hour ahead of now. -/
def calc_next_hour (now : Nat) : Nat :=
  let next := (now - now % usPerHour) + usPerHour
  if usPerHour < next - now then next - usPerHour else next

/-! ## Lamp targets (transitions.py, data_types.py, io/common.py) -/

/-- The `LampState` enumeration of io/common.py. -/
inductive LampState where
  | OFF
  | ON
  | BLINK
  | BLINK_FAST
  | ANIMATION
deriving DecidableEq, Repr

/-- The `StudioLampStatus` named tuple of data_types.py: one lamp state
per colour. -/
structure StudioLampStatus where
  green : LampState
  yellow : LampState
  red : LampState
deriving DecidableEq, Repr

/-- The `LampStateTarget` named tuple of transitions.py: the status for
the automat, the X studio, the Y studio, and every other studio. -/
structure LampStateTarget where
  automat : StudioLampStatus
  x : StudioLampStatus
  y : StudioLampStatus
  other : StudioLampStatus
deriving DecidableEq, Repr

/-- The per-state lamp targets of the `States` enumeration
(transitions.py lines 94-313), keyed by state name. -/
def statesLampTargets : List (String × LampStateTarget) :=
  [ ("automat_on_air",
      ⟨⟨.ON, .OFF, .OFF⟩, ⟨.OFF, .OFF, .OFF⟩, ⟨.OFF, .OFF, .OFF⟩, ⟨.OFF, .OFF, .OFF⟩⟩),
    ("automat_on_air_immediate_state_X",
      ⟨⟨.ON, .OFF, .OFF⟩, ⟨.OFF, .OFF, .ON⟩, ⟨.OFF, .OFF, .OFF⟩, ⟨.OFF, .OFF, .OFF⟩⟩),
    ("from_automat_on_air_change_to_studio_X_on_next_hour",
      ⟨⟨.ON, .OFF, .OFF⟩, ⟨.BLINK, .OFF, .OFF⟩, ⟨.OFF, .OFF, .OFF⟩, ⟨.OFF, .OFF, .OFF⟩⟩),
    ("studio_X_on_air",
      ⟨⟨.OFF, .OFF, .OFF⟩, ⟨.ON, .OFF, .OFF⟩, ⟨.OFF, .OFF, .OFF⟩, ⟨.OFF, .OFF, .OFF⟩⟩),
    ("from_studio_X_on_air_change_to_automat_on_next_hour",
      ⟨⟨.BLINK, .OFF, .OFF⟩, ⟨.ON, .BLINK, .OFF⟩, ⟨.OFF, .OFF, .OFF⟩, ⟨.OFF, .OFF, .OFF⟩⟩),
    ("studio_X_on_air_immediate_state",
      ⟨⟨.OFF, .OFF, .OFF⟩, ⟨.ON, .OFF, .ON⟩, ⟨.OFF, .OFF, .OFF⟩, ⟨.OFF, .OFF, .OFF⟩⟩),
    ("studio_X_on_air_immediate_release",
      ⟨⟨.BLINK_FAST, .OFF, .OFF⟩, ⟨.ON, .BLINK, .ON⟩, ⟨.OFF, .OFF, .OFF⟩, ⟨.OFF, .BLINK, .BLINK⟩⟩),
    ("from_studio_X_on_air_change_to_studio_Y_on_next_hour",
      ⟨⟨.OFF, .OFF, .OFF⟩, ⟨.ON, .ON, .OFF⟩, ⟨.BLINK, .OFF, .OFF⟩, ⟨.OFF, .OFF, .OFF⟩⟩),
    ("studio_X_on_air_studio_Y_takeover_request",
      ⟨⟨.OFF, .OFF, .OFF⟩, ⟨.ON, .BLINK, .OFF⟩, ⟨.OFF, .ON, .OFF⟩, ⟨.OFF, .OFF, .OFF⟩⟩),
    ("noop",
      ⟨⟨.OFF, .OFF, .OFF⟩, ⟨.OFF, .OFF, .OFF⟩, ⟨.OFF, .OFF, .OFF⟩, ⟨.OFF, .OFF, .OFF⟩⟩) ]

/-- Modelled from the spec: the `BaseStudio.lamp_state` property
written by `Dispatcher._assure_lamp_state` belongs to a data_types.py
revision missing from src (the src revision exposes the equivalent
`lamp_status_typed` setter at data_types.py lines 90-94, which applies
the assigned status to the studio's lamps).  Per the spec, applying a
status makes it the studio's physical lamp state, so the status a
studio receives IS its resulting lamp state.  This function is the
status assigned to one studio by the loop of `_assure_lamp_state`
(dispatcher.py 332-338): the X studio receives the x target, the Y
studio the y target, every other studio the other target.  (The
automat studio is assigned the automat target unconditionally at line
331.) -/
def assureLampStudio [DecidableEq σ] (d : DispState σ) (tgt : LampStateTarget)
    (s : σ) : StudioLampStatus :=
  if d.x = some s then tgt.x
  else if d.y = some s then tgt.y
  else tgt.other

/-! ## Persistence (Dispatcher.load, dispatcher.py 471-500)

The persisted record has keys x, y, state.  Loading proceeds by
sequential mutation with exceptions caught at the end of `load`: a
missing file and undecodable JSON are logged and leave everything
unchanged; the x and y fields are skipped when falsy (absent or the
empty string, `if state.x:`), otherwise looked up in the GLOBAL
`Studio.names` registry (data_types.py line 38) - which holds every
constructed studio, the automat included, not only the studios
registered with this dispatcher.  An unregistered x name raises
`KeyError` before `_x` is assigned; an unregistered y name raises
`KeyError` AFTER `_x` was already assigned.  On success the on-air
value is asserted from the state-name family and the machine is driven
by the automatic `to_<state>` trigger.  Loading binds studios by name,
so this model fixes the studio type to `String` (the keys of
`Studio.names`), and passes the registry as the `names` list.
-/

/-- The possible shapes of the persisted record seen by `load`: a
missing file (`IOError` errno 2), undecodable JSON
(`json.JSONDecodeError`), or a decoded record with optional x and y
names and a state name. -/
inductive LoadInput where
  | missing
  | badJson
  | record (x y : Option String) (state : String)
deriving DecidableEq, Repr

/-- The tail of a successful rebinding: assert the on-air value from
the state-name family.  `_change_to_studio` looks `_x` up in
`_studios_to_selector_value`, which is keyed by the studios registered
with THIS dispatcher, and raises a caught `KeyError` when `_x` is
unbound or bound to a studio outside that mapping (for instance the
automat restored from a record).  Then the `to_<state>` auto
transition fires.  An unknown state name makes `machine.trigger` raise
an uncaught `AttributeError`, modelled as `none`; a `KeyError` out of
an enter callback is caught after the machine state was already set. -/
def loadFinish (cfg : DispCfg String) (d : DispState String) (st : String) :
    Option (DispState String) :=
  let step1 : Option (DispState String) :=
    if strContains st "automat_on_air" then some { d with onAir := cfg.automatSel }
    else if strContains st "studio_X_on_air" then
      match d.x with
      | some s => if s ∈ cfg.studios then some { d with onAir := cfg.selVal s } else none
      | none => none
    else some d
  match step1 with
  | none => some d
  | some d2 =>
    if st ∈ stateNames then
      match fireTrigger cfg d2 ("to_" ++ st) none with
      | some d3 => some d3
      | none => some { d2 with state := st }
    else none

/-- Dispatcher.load, with `names` the keys of the global
`Studio.names` registry (every constructed studio, the automat
included).  A falsy x or y field (absent or the empty string) skips
its binding; a non-empty name is looked up in the registry, raising a
caught `KeyError` when absent.  `none` is an exception escaping `load`
uncaught; `some d` is the dispatcher left in state `d` (exceptions
listed in the except clauses are caught and only logged). -/
def loadDispatcher (cfg : DispCfg String) (names : List String)
    (d : DispState String) : LoadInput → Option (DispState String)
  | .missing => some d
  | .badJson => some d
  | .record x y st =>
    match x with
    | some nx =>
      if nx = "" then loadFinish cfg d st
      else if nx ∈ names then
        let d1 := { d with x := some nx }
        match y with
        | some ny =>
          if ny = "" then loadFinish cfg d1 st
          else if ny ∈ names then loadFinish cfg { d1 with y := some ny } st
          else some d1
        | none => loadFinish cfg d1 st
      else some d
    | none => loadFinish cfg d st

/-! ## Dispatcher.start (dispatcher.py 194-204) -/

/-- The registrations performed by `Dispatcher.start`: the `_started`
flag, the number of `_set_current_state` observers registered on the
selector controller, and the numbers of spawned consumer
(`_process_studio_button_events`), convergence
(`_assure_current_state_loop`) and cleanup (`_cleanup`) tasks. -/
structure StartState where
  started : Bool
  observers : Nat
  consumerTasks : Nat
  convergenceTasks : Nat
  cleanupTasks : Nat
deriving DecidableEq, Repr

/-- The registration state after `__init__` (`self._started = False`,
nothing registered yet). -/
def freshStartState : StartState := ⟨false, 0, 0, 0, 0⟩

/-- Dispatcher.start: return immediately when already started,
otherwise set the flag and register the observer and the three
long-running tasks. -/
def startDispatcher (s : StartState) : StartState :=
  if s.started then s
  else
    { started := true,
      observers := s.observers + 1,
      consumerTasks := s.consumerTasks + 1,
      convergenceTasks := s.convergenceTasks + 1,
      cleanupTasks := s.cleanupTasks + 1 }

/-! ## Concrete fixtures

A deployment with studios A (selector 2) and B (selector 3), automat
selector 1, matching the scenarios of the specification, and a
three-studio variant with C (selector 4).
-/

/-- Two registered studios: A with selector value 2, B with 3; the
automat has selector value 1. -/
def cfgAB : DispCfg String :=
  ⟨["A", "B"], fun s => if s = "A" then 2 else if s = "B" then 3 else 0, 1⟩

/-- Three registered studios: A, B and C with selector values 2, 3, 4. -/
def cfgABC : DispCfg String :=
  ⟨["A", "B", "C"], fun s => if s = "A" then 2 else if s = "B" then 3 else 4, 1⟩

/-- The keys of the global `Studio.names` registry in the two-studio
deployment: the automat (constructed first, named Automat) and the two
studios. -/
def namesAB : List String := ["Automat", "A", "B"]

/-- The dispatcher after A pressed takeover in the initial state. -/
def dFromAutomat : DispState String :=
  ⟨"from_automat_on_air_change_to_studio_X_on_next_hour", some "A", none, 1⟩

/-- The dispatcher after the hour boundary brought A on air. -/
def dStudioX : DispState String := ⟨"studio_X_on_air", some "A", none, 2⟩

/-- The dispatcher after B additionally requested takeover. -/
def dTakeReq : DispState String :=
  ⟨"studio_X_on_air_studio_Y_takeover_request", some "A", some "B", 2⟩

/-- The state dFromAutomat is reached by one button event. -/
theorem reaches_dFromAutomat : Reaches cfgAB dFromAutomat :=
  Reaches.button (initialState cfgAB) dFromAutomat ⟨"A", Button.takeover⟩
    Reaches.init (by decide) (by decide)

/-- The state dStudioX is reached by a further hour firing. -/
theorem reaches_dStudioX : Reaches cfgAB dStudioX :=
  Reaches.timeout dFromAutomat dStudioX "next_hour" reaches_dFromAutomat
    (by decide) (by decide)

/-- The state dTakeReq is reached by a further button event from B. -/
theorem reaches_dTakeReq : Reaches cfgAB dTakeReq :=
  Reaches.button dStudioX dTakeReq ⟨"B", Button.takeover⟩ reaches_dStudioX
    (by decide) (by decide)

/-- The lamp target of the takeover-request state. -/
def takeReqTarget : LampStateTarget :=
  ⟨⟨.OFF, .OFF, .OFF⟩, ⟨.ON, .BLINK, .OFF⟩, ⟨.OFF, .ON, .OFF⟩, ⟨.OFF, .OFF, .OFF⟩⟩

/-! ## Claim theorems -/

/-- Claim C1: the dispatcher machine conforms exactly to the
declarative transition table: every listed (source, trigger) pair moves
the machine to the declared destination, and every vocabulary trigger
absent from the table for the current source leaves the machine state
unchanged (silently dropped). -/
theorem c1_machine_conforms_to_table :
    (∀ r ∈ tableRows, machineStep r.source r.trigger = r.dest) ∧
    (∀ s ∈ stateNames, ∀ t ∈ triggerVocab,
      inTable s t = false → machineStep s t = s) := by
  constructor
  · intro r hr
    fin_cases hr <;> rfl
  · intro s hs t ht
    fin_cases hs <;> fin_cases ht <;> (intro h; revert h; decide)

/-- Witness for C1 at two concrete pairs: a listed pair lands at its
declared destination, an absent pair is dropped. -/
theorem c1_witness :
    machineStep "automat_on_air" "takeover_X" =
      "from_automat_on_air_change_to_studio_X_on_next_hour" ∧
    machineStep "automat_on_air" "release_Y" = "automat_on_air" := by
  constructor
  · exact c1_machine_conforms_to_table.1
      ⟨"takeover_X", "automat_on_air",
        "from_automat_on_air_change_to_studio_X_on_next_hour", false⟩ (by decide)
  · exact c1_machine_conforms_to_table.2 "automat_on_air" (by decide)
      "release_Y" (by decide) (by decide)

/-- Claim C2: in every reachable dispatcher state (after the
after/finalize hooks of the last transition) the X slot is non-empty
exactly when the token X occurs in the state name, likewise for Y, and
when both are bound they are different studios. -/
theorem c2_role_slot_state_name_invariant {σ : Type} [DecidableEq σ]
    (cfg : DispCfg σ) (d : DispState σ) (h : Reaches cfg d) :
    (strContains d.state "X" = true ↔ d.x ≠ none) ∧
    (strContains d.state "Y" = true ↔ d.y ≠ none) ∧
    (∀ a b, d.x = some a → d.y = some b → a ≠ b) := by
  obtain ⟨_, hX, hY, hdist, _, _, _, _⟩ := inv_of_reaches h
  exact ⟨hX, hY, hdist⟩

/-- Witness for C2 at the reachable takeover-request state with X=A
and Y=B. -/
theorem c2_witness :
    (strContains dTakeReq.state "X" = true ↔ dTakeReq.x ≠ none) ∧
    (strContains dTakeReq.state "Y" = true ↔ dTakeReq.y ≠ none) ∧
    ("A" : String) ≠ "B" :=
  ⟨(c2_role_slot_state_name_invariant cfgAB dTakeReq reaches_dTakeReq).1,
   (c2_role_slot_state_name_invariant cfgAB dTakeReq reaches_dTakeReq).2.1,
   (c2_role_slot_state_name_invariant cfgAB dTakeReq reaches_dTakeReq).2.2
     "A" "B" rfl rfl⟩

/-- Claim C3: a transition flagged switch_xy swaps X from Y and
empties Y in its before phase, before the enter hook of the
destination reads X: a second studio pressing takeover in
studio_X_on_air_immediate_release lands in studio_X_on_air with X the
second studio, Y empty, and the on-air value the second studio's
selector value. -/
theorem c3_switch_xy_swap_before_enter {σ : Type} [DecidableEq σ]
    (cfg : DispCfg σ) (d : DispState σ) (a b : σ)
    (hst : d.state = "studio_X_on_air_immediate_release")
    (hx : d.x = some a) (hy : d.y = none) (hne : b ≠ a) :
    processButtonEvent cfg d ⟨b, Button.takeover⟩ =
      some ⟨"studio_X_on_air", some b, none, cfg.selVal b⟩ := by
  obtain ⟨st, x, y, o⟩ := d
  have hst2 : st = "studio_X_on_air_immediate_release" := hst
  have hx2 : x = some a := hx
  have hy2 : y = none := hy
  subst hst2; subst hx2; subst hy2
  rw [processButtonEvent_of_append (deriveAppend_second_none a b hne)]
  rfl

/-- Witness for C3 at the concrete scenario of the specification: X=A
on selector 2, B on selector 3 presses takeover, result X=B with
on-air value 3. -/
theorem c3_witness :
    processButtonEvent cfgAB
      (⟨"studio_X_on_air_immediate_release", some "A", none, 2⟩ : DispState String)
      ⟨"B", Button.takeover⟩ =
      some ⟨"studio_X_on_air", some "B", none, 3⟩ :=
  c3_switch_xy_swap_before_enter cfgAB
    ⟨"studio_X_on_air_immediate_release", some "A", none, 2⟩ "A" "B"
    rfl rfl rfl (by decide)

/-- Counterexample to claim C4: with X=A and Y=B bound, a press from a
third studio C does NOT fire a trigger with suffix _other: no trigger
is fired at all (the consumer drops the event before the machine), the
machine state being unchanged. -/
theorem c4_third_studio_counterexample :
    firedTrigger
      (⟨"studio_X_on_air_studio_Y_takeover_request", some "A", some "B", 2⟩ :
        DispState String)
      ⟨"C", Button.takeover⟩ = none ∧
    processButtonEvent cfgABC
      (⟨"studio_X_on_air_studio_Y_takeover_request", some "A", some "B", 2⟩ :
        DispState String)
      ⟨"C", Button.takeover⟩ =
      some ⟨"studio_X_on_air_studio_Y_takeover_request", some "A", some "B", 2⟩ := by
  exact ⟨rfl, rfl⟩

/-- Claim C4 as amended: the suffix is _X when X is empty or equals the
studio, _Y when X is bound to another studio and Y is empty or equals
the studio, and for a third studio with both slots bound to others no
trigger is fired at all and the consumer leaves the machine
unchanged. -/
theorem c4_trigger_suffix_derivation {σ : Type} [DecidableEq σ]
    (cfg : DispCfg σ) (d : DispState σ) (ev : ButtonEvent σ) :
    (d.x = none ∨ d.x = some ev.studio →
      firedTrigger d ev = some (ev.button.name ++ "_X")) ∧
    (d.x ≠ none → d.x ≠ some ev.studio → (d.y = none ∨ d.y = some ev.studio) →
      firedTrigger d ev = some (ev.button.name ++ "_Y")) ∧
    (d.x ≠ none → d.x ≠ some ev.studio → d.y ≠ none → d.y ≠ some ev.studio →
      firedTrigger d ev = none ∧ processButtonEvent cfg d ev = some d) := by
  refine ⟨?_, ?_, ?_⟩
  · rintro (hx | hx)
    · simp [firedTrigger, deriveAppend, hx]
    · simp [firedTrigger, deriveAppend, hx]
  · intro h1 h2 h3
    rcases h3 with h3 | h3 <;> simp [firedTrigger, deriveAppend, h1, h2, h3]
  · intro h1 h2 h3 h4
    have hda : deriveAppend d.x d.y ev.studio = none := by
      simp [deriveAppend, h1, h2, h3, h4]
    exact ⟨by simp [firedTrigger, hda], processButtonEvent_of_no_append hda⟩

/-- Witness for C4 at a concrete second-studio press deriving the _Y
suffix. -/
theorem c4_witness :
    firedTrigger (⟨"studio_X_on_air", some "A", none, 2⟩ : DispState String)
      ⟨"B", Button.takeover⟩ = some "takeover_Y" :=
  (c4_trigger_suffix_derivation cfgAB ⟨"studio_X_on_air", some "A", none, 2⟩
    ⟨"B", Button.takeover⟩).2.1 (by decide) (by decide) (Or.inl rfl)

/-- Claim C5: in every reachable dispatcher state the on-air selector
value is the automat's selector value in the automat-on-air family of
states and the selector value of the studio bound to X otherwise; it
never holds any other value. -/
theorem c5_on_air_selector_invariant {σ : Type} [DecidableEq σ]
    (cfg : DispCfg σ) (d : DispState σ) (h : Reaches cfg d) :
    (strContains d.state "automat_on_air" = true → d.onAir = cfg.automatSel) ∧
    (strContains d.state "automat_on_air" = false →
      ∃ a, d.x = some a ∧ d.onAir = cfg.selVal a) := by
  obtain ⟨_, _, _, _, _, _, hA, hS⟩ := inv_of_reaches h
  exact ⟨hA, hS⟩

/-- Witness for C5 at the reachable state with studio A on air. -/
theorem c5_witness : dStudioX.onAir = cfgAB.selVal "A" := by
  obtain ⟨a, ha, ho⟩ :=
    (c5_on_air_selector_invariant cfgAB dStudioX reaches_dStudioX).2 (by decide)
  obtain rfl : "A" = a := Option.some.inj ha
  exact ho

/-- Claim C6 describes the intended timer-start discipline; the
immediate-release start routine inverts the done-guard of its two
siblings: with a running task 7 in the slot it replaces the task (and
so resets the deadline), with a completed task 7 in the slot it starts
nothing, while the next-hour and immediate-state routines keep a
running task.  The final conjunct evaluates the full per-transition
discipline entering studio_X_on_air_immediate_release with a running
task: the claim requires the slot unchanged, the code replaces it. -/
theorem c6_immediate_release_start_guard_inverted :
    startImmediateReleaseTimer (some ⟨7, false⟩) 8 = some ⟨8, false⟩ ∧
    startImmediateReleaseTimer (some ⟨7, true⟩) 8 = some ⟨7, true⟩ ∧
    startNextHourTimer (some ⟨7, false⟩) 8 = some ⟨7, false⟩ ∧
    startImmediateStateTimer (some ⟨7, false⟩) 8 = some ⟨7, false⟩ ∧
    timerAfterTransition startImmediateReleaseTimer "immediate_release"
      "studio_X_on_air_immediate_release" (some ⟨7, false⟩) 8 = some ⟨8, false⟩ := by
  decide

/-- Counterexample to claim C7: loading a record whose x names the
known studio A and whose y names a studio Z absent from the registry
leaves the machine in automat_on_air but with the X slot still bound
to A: the partial rebinding of X survives the failed load. -/
theorem c7_partial_rebinding_counterexample :
    loadDispatcher cfgAB namesAB (initialState cfgAB)
      (.record (some "A") (some "Z") "studio_X_on_air") =
      some ⟨"automat_on_air", some "A", none, 1⟩ ∧
    (some "A" : Option String) ≠ none := by
  exact ⟨rfl, by simp⟩

/-- Claim C7 as amended: a missing record, undecodable JSON, or a
non-empty x name absent from the Studio.names registry leave the
dispatcher fully unchanged in the initial state; an x name resolving
in the registry followed by a non-empty y name absent from it leaves
the machine state and Y unchanged but keeps X rebound to the x studio
(restoration is not all-or-nothing). -/
theorem c7_load_failure_behaviour (cfg : DispCfg String) (names : List String)
    (d : DispState String) (nx ny st : String) :
    loadDispatcher cfg names d .missing = some d ∧
    loadDispatcher cfg names d .badJson = some d ∧
    (nx ≠ "" → nx ∉ names →
      ∀ y, loadDispatcher cfg names d (.record (some nx) y st) = some d) ∧
    (nx ≠ "" → nx ∈ names → ny ≠ "" → ny ∉ names →
      loadDispatcher cfg names d (.record (some nx) (some ny) st) =
        some { d with x := some nx }) := by
  refine ⟨rfl, rfl, ?_, ?_⟩
  · intro h0 h y
    simp [loadDispatcher, h0, h]
  · intro h0 h1 h2 h3
    simp [loadDispatcher, h0, h1, h2, h3]

/-- Witness for C7 at a concrete name absent from the registry. -/
theorem c7_witness :
    loadDispatcher cfgAB namesAB (initialState cfgAB)
      (.record (some "Z") none "studio_X_on_air") = some (initialState cfgAB) :=
  (c7_load_failure_behaviour cfgAB namesAB (initialState cfgAB) "Z" "Q"
    "studio_X_on_air").2.2.1 (by decide) (by decide) none

/-- Counterexample to claim C8: on an input lying exactly on an hour
boundary (epoch microsecond 0), calc_next_hour returns the boundary one
hour LATER, not the input itself, although the input already has zero
minute, second and microsecond fields. -/
theorem c8_hour_boundary_counterexample :
    calc_next_hour 0 = usPerHour ∧ 0 % usPerHour = 0 ∧ usPerHour ≠ 0 := by
  decide

/-- Claim C8 as amended: calc_next_hour returns the smallest timestamp
with zero minute, second and sub-second fields STRICTLY GREATER than
its input; on an exact hour boundary this is one hour later. -/
theorem c8_calc_next_hour_strictly_next (now : Nat) :
    calc_next_hour now % usPerHour = 0 ∧ now < calc_next_hour now ∧
    ∀ t, now < t → t % usPerHour = 0 → calc_next_hour now ≤ t := by
  have hcalc : calc_next_hour now = now - now % 3600000000 + 3600000000 := by
    show (if 3600000000 < now - now % 3600000000 + 3600000000 - now
          then now - now % 3600000000 + 3600000000 - 3600000000
          else now - now % 3600000000 + 3600000000) =
        now - now % 3600000000 + 3600000000
    rw [if_neg (by omega)]
  refine ⟨?_, ?_, ?_⟩
  · show calc_next_hour now % 3600000000 = 0
    rw [hcalc]; omega
  · rw [hcalc]; omega
  · intro t h1 h2
    have h2b : t % 3600000000 = 0 := h2
    show calc_next_hour now ≤ t
    rw [hcalc]; omega

/-- Witness for C8: the boundary one hour after the one at epoch hour
one is an upper bound for calc_next_hour there. -/
theorem c8_witness : calc_next_hour 3600000000 ≤ 7200000000 :=
  (c8_calc_next_hour_strictly_next 3600000000).2.2 7200000000 (by decide) (by decide)

/-- Claim C9: after every transition the destination state's lamp
target exists and is applied by role: the studio bound to X receives
the x target, the studio bound to Y the y target, and every other
studio the other target (the automat studio is assigned the automat
target unconditionally). -/
theorem c9_lamp_projection {σ : Type} [DecidableEq σ]
    (cfg : DispCfg σ) (d : DispState σ) (h : Reaches cfg d) :
    ∃ tgt, statesLampTargets.lookup d.state = some tgt ∧
      (∀ s, d.x = some s → assureLampStudio d tgt s = tgt.x) ∧
      (∀ s, d.y = some s → assureLampStudio d tgt s = tgt.y) ∧
      (∀ s, d.x ≠ some s → d.y ≠ some s → assureLampStudio d tgt s = tgt.other) := by
  obtain ⟨hmem, hX, hY, hdist, _, _, _, _⟩ := inv_of_reaches h
  obtain ⟨tgt, htgt⟩ : ∃ tgt, statesLampTargets.lookup d.state = some tgt := by
    obtain ⟨st, x, y, o⟩ := d
    simp only [coreStates, List.mem_cons, List.not_mem_nil, or_false] at hmem
    rcases hmem with rfl | rfl | rfl | rfl | rfl | rfl | rfl | rfl | rfl <;>
      exact ⟨_, rfl⟩
  refine ⟨tgt, htgt, ?_, ?_, ?_⟩
  · intro s hs
    simp [assureLampStudio, hs]
  · intro s hs
    have hxneq : d.x ≠ some s := fun hx => (hdist s s hx hs) rfl
    simp [assureLampStudio, hs, hxneq]
  · intro s h1 h2
    simp [assureLampStudio, h1, h2]

/-- Witness for C9 at the reachable takeover-request state: studio B,
bound to Y, receives the y target of that state. -/
theorem c9_witness :
    assureLampStudio dTakeReq takeReqTarget "B" = takeReqTarget.y := by
  obtain ⟨tgt, htgt, hx, hy, ho⟩ := c9_lamp_projection cfgAB dTakeReq reaches_dTakeReq
  obtain rfl : takeReqTarget = tgt :=
    Option.some.inj
      ((show statesLampTargets.lookup dTakeReq.state = some takeReqTarget from
        rfl).symm.trans htgt)
  exact hy "B" rfl

/-- Claim C10: Dispatcher.start is idempotent: the first call sets the
started flag and registers the selector observer and the consumer,
convergence and cleanup tasks exactly once; any further call is a
no-op. -/
theorem c10_start_idempotent (s : StartState) :
    startDispatcher (startDispatcher s) = startDispatcher s ∧
    (s.started = false →
      startDispatcher s =
        ⟨true, s.observers + 1, s.consumerTasks + 1, s.convergenceTasks + 1,
          s.cleanupTasks + 1⟩) ∧
    (s.started = true → startDispatcher s = s) := by
  obtain ⟨st, ob, co, cv, cl⟩ := s
  cases st <;> simp [startDispatcher]

/-- Witness for C10 from a freshly initialised dispatcher. -/
theorem c10_witness :
    startDispatcher freshStartState = ⟨true, 1, 1, 1, 1⟩ ∧
    startDispatcher (startDispatcher freshStartState) =
      startDispatcher freshStartState :=
  ⟨(c10_start_idempotent freshStartState).2.1 rfl,
   (c10_start_idempotent freshStartState).1⟩

end BermudaFunk
